import Mathlib

/-!
Verification development for the AI-Crypto-Trading-Copilot decision pipeline.

The Python sources embedded here are:
  * `src/ai_engine/agents/market/schema.py`, `worker.py`, `evaluator.py`, `graph.py`
    (the market worker↔evaluator retry subgraph),
  * `src/ai_engine/agents/risk/schema.py`, `worker.py`, `evaluator.py`, `graph.py`
    (the risk subgraph with the human-escalation hook),
  * `src/ai_engine/graph/hierarchical_graph.py` (bridge nodes, fallback router,
    final-decision aggregator),
  * `src/ai_engine/tools/risk.py` (`check_risk_constraints` and its sub-checks),
  * `src/ai_engine/tools/market.py` (`calculate_rsi`).

Python floats are modelled as exact rationals (`ℚ`); the claims under study only
branch on sign/comparison tests, which agree with float semantics on the inputs
considered.  Python `int` counters that the program only initialises to 0 and
increments (`retry_count`, `max_retries`) are modelled as `ℕ`.
Fallible Python code (a `raise` that a caller can observe) is modelled with
`Except String`; code whose `try/except` absorbs every fault is modelled as a
total function, mirroring the handler.
-/

/-! ### Market subgraph data model (from `agents/market/schema.py`) -/

/-- Output of the market worker (`MarketWorkerOutput` in `schema.py`). -/
structure MarketWorkerOutput where
  rsi : ℚ
  rsi_signal : String
  ema_short : ℚ
  ema_long : ℚ
  ema_signal : String
  volume_ratio : ℚ
  volume_signal : String
  trend_direction : String
  trend_strength : ℚ
deriving Repr, DecidableEq

/-- Evaluation produced by the market evaluator (`MarketEvaluation` in `schema.py`). -/
structure MarketEvaluation where
  is_valid : Bool
  confidence : ℚ
  quality_score : ℚ
  issues : List String
  summary : String
  recommendation : String
deriving Repr, DecidableEq

/-- State of the market subgraph (`MarketSubgraphState` in `schema.py`). -/
structure MarketSubgraphState where
  symbol : String
  prices : List ℚ
  volumes : List ℚ
  worker_output : Option MarketWorkerOutput := none
  evaluation : Option MarketEvaluation := none
  retry_count : ℕ := 0
  max_retries : ℕ := 2
  evaluator_feedback : Option String := none
  completed : Bool := false
  error : Option String := none
deriving Repr, DecidableEq

/-- Partial state update returned by a market subgraph node.  A node in the
source returns a fresh `MarketSubgraphState(...)`; the graph library treats the
constructor's explicitly passed fields as the update.  `none` here means the
field was not passed to the constructor. -/
structure MarketStateUpdate where
  u_symbol : Option String := none
  u_prices : Option (List ℚ) := none
  u_volumes : Option (List ℚ) := none
  u_worker_output : Option (Option MarketWorkerOutput) := none
  u_evaluation : Option (Option MarketEvaluation) := none
  u_retry_count : Option ℕ := none
  u_max_retries : Option ℕ := none
  u_evaluator_feedback : Option (Option String) := none
  u_completed : Option Bool := none
  u_error : Option (Option String) := none
deriving Repr, DecidableEq

/-- Modelled from the spec: the executor merge of spec sections 4.2 and 6 (the
graph library that runs the compiled subgraphs is not part of this repository).
A node's returned partial state is merged right-biased into the current state:
fields absent in the partial result keep their prior value. -/
def applyUpdate (s : MarketSubgraphState) (u : MarketStateUpdate) : MarketSubgraphState :=
  { symbol := u.u_symbol.getD s.symbol
    prices := u.u_prices.getD s.prices
    volumes := u.u_volumes.getD s.volumes
    worker_output := u.u_worker_output.getD s.worker_output
    evaluation := u.u_evaluation.getD s.evaluation
    retry_count := u.u_retry_count.getD s.retry_count
    max_retries := u.u_max_retries.getD s.max_retries
    evaluator_feedback := u.u_evaluator_feedback.getD s.evaluator_feedback
    completed := u.u_completed.getD s.completed
    error := u.u_error.getD s.error }

/-! ### Market worker (from `agents/market/worker.py`)

The worker's numeric indicator computation (`get_market_indicators` plus the
signal post-processing, lines 41-81) is kept as a parameter
`indicators : MarketSubgraphState → Option MarketWorkerOutput`; `some out`
means the computation returned `out`, `none` means it raised (the `except`
branch at lines 95-105).  The retry and completion logic under study does not
depend on the numeric values. -/

/-- The market worker node, `market_worker` at `worker.py` lines 30-105.  On
success (lines 85-93) the returned constructor passes `symbol`, `prices`,
`volumes`, `worker_output`, `evaluation` (unchanged value), `completed=False`
and `error=None` — and does not pass `retry_count`, `max_retries` or
`evaluator_feedback`.  On an exception (lines 97-104) it passes
`worker_output=None`, `evaluation=None`, `completed=True` and the error text. -/
def market_worker (indicators : MarketSubgraphState → Option MarketWorkerOutput)
    (s : MarketSubgraphState) : MarketStateUpdate :=
  match indicators s with
  | some out =>
      { u_symbol := some s.symbol
        u_prices := some s.prices
        u_volumes := some s.volumes
        u_worker_output := some (some out)
        u_evaluation := some s.evaluation
        u_completed := some false
        u_error := some none }
  | none =>
      { u_symbol := some s.symbol
        u_prices := some s.prices
        u_volumes := some s.volumes
        u_worker_output := some none
        u_evaluation := some none
        u_completed := some true
        u_error := some (some "Market worker failed") }

/-! ### Market evaluator (from `agents/market/evaluator.py`) -/

/-- Result of the LCEL chain invocation at attempt `i` of the evaluator's inner
retry loop (`chain.invoke` at `evaluator.py` lines 100-121).  `none` means the
invocation raised.  The chain is the opaque judgment function of the spec. -/
abbrev MarketJudge := ℕ → Option MarketEvaluation

/-- First successful attempt of the evaluator's inner `for attempt in range(n)`
loop (`evaluator.py` lines 96-121): attempts run in order and the loop `break`s
on the first success. -/
def firstSuccess (judge : MarketJudge) (n : ℕ) : Option MarketEvaluation :=
  (List.range n).findSome? judge

/-- Default evaluation built in the evaluator's outer `except` handler
(`evaluator.py` lines 161-168). -/
def defaultFailedEvaluation (msg : String) : MarketEvaluation :=
  { is_valid := false
    confidence := 0
    quality_score := 0
    issues := ["Evaluation failed: " ++ msg]
    summary := "Evaluation error"
    recommendation := "Unable to evaluate - treat with caution" }

/-- Feedback string prepared for a worker retry (`evaluator.py` lines 133-136;
the numeric confidence/quality formatting is elided). -/
def validationFeedback (e : MarketEvaluation) : String :=
  "Validation failed. Issues: " ++ String.intercalate ", " e.issues

/-- Message of the fault that reaches the outer handler when every attempt of
the inner loop failed: the loop then falls through and line 124 reads the
never-assigned local `evaluation`. -/
def unboundEvaluationMsg : String :=
  "local variable evaluation referenced before assignment"

/-- The market evaluator node, `market_evaluator` at `evaluator.py` lines
33-171.  With no worker output it raises `ValueError` (line 49), caught by the
outer handler.  Otherwise the inner loop invokes the judgment chain up to 3
times; on a success (lines 139-150) the returned constructor passes every field
including the new `retry_count` (incremented exactly when `is_valid` is false)
and `completed=evaluation.is_valid`; if all attempts fail, reading the unbound
local raises and the outer handler (lines 152-171) returns a constructor that
passes a default invalid evaluation and `completed=True` but does not pass
`retry_count`, `max_retries` or `evaluator_feedback`. -/
def market_evaluator (judge : MarketJudge) (s : MarketSubgraphState) : MarketStateUpdate :=
  match s.worker_output with
  | none =>
      { u_symbol := some s.symbol
        u_prices := some s.prices
        u_volumes := some s.volumes
        u_worker_output := some s.worker_output
        u_evaluation := some (some (defaultFailedEvaluation "No worker output to evaluate"))
        u_completed := some true
        u_error := some (some "Evaluator failed: No worker output to evaluate") }
  | some _ =>
      match firstSuccess judge 3 with
      | some evaluation =>
          { u_symbol := some s.symbol
            u_prices := some s.prices
            u_volumes := some s.volumes
            u_worker_output := some s.worker_output
            u_evaluation := some (some evaluation)
            u_retry_count := some (if evaluation.is_valid then s.retry_count else s.retry_count + 1)
            u_max_retries := some s.max_retries
            u_evaluator_feedback :=
              some (if evaluation.is_valid then none else some (validationFeedback evaluation))
            u_completed := some evaluation.is_valid
            u_error := some none }
      | none =>
          { u_symbol := some s.symbol
            u_prices := some s.prices
            u_volumes := some s.volumes
            u_worker_output := some s.worker_output
            u_evaluation := some (some (defaultFailedEvaluation unboundEvaluationMsg))
            u_completed := some true
            u_error := some (some ("Evaluator failed: " ++ unboundEvaluationMsg)) }

/-! ### Market subgraph routing and execution (from `agents/market/graph.py`) -/

/-- Targets of the conditional edge out of the evaluator
(`graph.py` lines 77-81): back to the worker, or `END`. -/
inductive MarketRoute where
  | worker
  | endRoute
deriving Repr, DecidableEq

/-- The conditional-edge decider `should_retry_worker` at `graph.py` lines
13-46: `END` when the evaluation is absent, valid, or the retry count exceeds
`max_retries`; otherwise back to the worker. -/
def should_retry_worker (s : MarketSubgraphState) : MarketRoute :=
  match s.evaluation with
  | none => .endRoute
  | some e =>
      if e.is_valid then .endRoute
      else if s.retry_count > s.max_retries then .endRoute
      else .worker

/-- Nodes of the compiled market subgraph, plus the terminal marker. -/
inductive MarketNode where
  | worker
  | evaluator
  | terminal
deriving Repr, DecidableEq

/-- Executor configuration for a market subgraph run: current node, current
state, and the number of evaluator invocations completed so far (used to index
the per-invocation judgment outcomes). -/
structure MarketConfig where
  node : MarketNode
  state : MarketSubgraphState
  evals : ℕ
deriving Repr, DecidableEq

/-- Modelled from the spec: one executor step of the compiled subgraph
(spec section 4.2; the graph library is not part of this repository), over the
graph wired in `create_market_subgraph` (`graph.py` lines 65-87): entry is the
worker, `worker → evaluator` is a static edge, and the edge out of the
evaluator is resolved by `should_retry_worker` on the merged state. -/
def marketStep (indicators : MarketSubgraphState → Option MarketWorkerOutput)
    (judge : ℕ → MarketJudge) (c : MarketConfig) : MarketConfig :=
  match c.node with
  | .worker =>
      { node := .evaluator
        state := applyUpdate c.state (market_worker indicators c.state)
        evals := c.evals }
  | .evaluator =>
      let s := applyUpdate c.state (market_evaluator (judge c.evals) c.state)
      { node := match should_retry_worker s with
                | .worker => .worker
                | .endRoute => .terminal
        state := s
        evals := c.evals + 1 }
  | .terminal => c

/-- Initial market subgraph state as built by the bridge node
(`hierarchical_graph.py` lines 81-85): inputs set, everything else at the
schema defaults, with the default `max_retries` replaced by the run's bound. -/
def mkMarketInit (symbol : String) (prices volumes : List ℚ) (m : ℕ) : MarketSubgraphState :=
  { symbol := symbol, prices := prices, volumes := volumes, max_retries := m }

/-- Initial executor configuration of a market subgraph run. -/
def mkMarketConfig (symbol : String) (prices volumes : List ℚ) (m : ℕ) : MarketConfig :=
  { node := .worker, state := mkMarketInit symbol prices volumes m, evals := 0 }

/-- A concrete worker output used in witnesses and counterexamples. -/
def sampleWorkerOutput : MarketWorkerOutput :=
  { rsi := 55
    rsi_signal := "neutral"
    ema_short := 101
    ema_long := 100
    ema_signal := "bullish"
    volume_ratio := 1
    volume_signal := "normal"
    trend_direction := "bullish"
    trend_strength := 1/2 }

/-- A concrete always-rejecting evaluation used in witnesses and
counterexamples. -/
def rejectingEvaluation : MarketEvaluation :=
  { is_valid := false
    confidence := 1/10
    quality_score := 1/5
    issues := ["indicators inconsistent"]
    summary := "low quality"
    recommendation := "recheck data" }

/-- A state in which the worker has already produced output, used by the
concrete evaluator-failure scenarios. -/
def sampleReadyState : MarketSubgraphState :=
  { mkMarketInit "ETH" [1, 2] [3, 4] 2 with worker_output := some sampleWorkerOutput }

/-! ### Risk tool (from `tools/risk.py`) -/

/-- Result of `check_stop_loss` (`risk.py` lines 10-33). -/
structure StopLossCheck where
  triggered : Bool
  current_loss_pct : ℚ
  stop_loss_pct : ℚ
  action : String
deriving Repr, DecidableEq

/-- Result of `check_position_size` (`risk.py` lines 36-60). -/
structure PositionSizeCheck where
  is_valid : Bool
  proposed_size : ℚ
  max_allowed : ℚ
  size_pct : ℚ
  action : String
deriving Repr, DecidableEq

/-- Result of `check_exposure_limits` (`risk.py` lines 63-88). -/
structure ExposureCheck where
  is_valid : Bool
  total_exposure : ℚ
  exposure_pct : ℚ
  max_exposure_pct : ℚ
  action : String
deriving Repr, DecidableEq

/-- Result of `check_volatility_limit` (`risk.py` lines 91-111). -/
structure VolatilityCheck where
  is_valid : Bool
  current_volatility : ℚ
  max_volatility : ℚ
  action : String
deriving Repr, DecidableEq

/-- The `risk_params` dictionary with its default values
(`risk.py` lines 149-155). -/
structure RiskParams where
  stop_loss_pct : ℚ := 5 / 100
  max_position_pct : ℚ := 10 / 100
  max_total_exposure : ℚ := 50 / 100
  max_volatility : ℚ := 5 / 100
deriving Repr, DecidableEq

/-- Stop-loss check, `check_stop_loss` at `risk.py` lines 10-33.  The Python
division `(entry_price - current_price) / entry_price` raises
`ZeroDivisionError` when `entry_price` is zero; that fault is the `.error`
case. -/
def check_stop_loss (current_price entry_price stop_loss_pct : ℚ) :
    Except String StopLossCheck :=
  if entry_price = 0 then .error "ZeroDivisionError"
  else
    let loss_pct := (entry_price - current_price) / entry_price
    let triggered := decide (loss_pct ≥ stop_loss_pct)
    .ok { triggered := triggered
          current_loss_pct := loss_pct * 100
          stop_loss_pct := stop_loss_pct * 100
          action := if triggered then "close_position" else "hold" }

/-- Position-size check, `check_position_size` at `risk.py` lines 36-60. -/
def check_position_size (proposed_size account_balance max_position_pct : ℚ) :
    PositionSizeCheck :=
  let max_allowed := account_balance * max_position_pct
  let is_valid := decide (proposed_size ≤ max_allowed)
  { is_valid := is_valid
    proposed_size := proposed_size
    max_allowed := max_allowed
    size_pct := if account_balance > 0 then proposed_size / account_balance * 100 else 0
    action := if is_valid then "proceed" else "reduce_size" }

/-- Exposure check, `check_exposure_limits` at `risk.py` lines 63-88.
`current_positions` is the symbol-to-value dictionary, kept as an association
list; only the sum of its values is used. -/
def check_exposure_limits (current_positions : List (String × ℚ))
    (account_balance max_total_exposure : ℚ) : ExposureCheck :=
  let total_exposure := (current_positions.map Prod.snd).sum
  let exposure_pct := if account_balance > 0 then total_exposure / account_balance else 0
  let is_valid := decide (exposure_pct ≤ max_total_exposure)
  { is_valid := is_valid
    total_exposure := total_exposure
    exposure_pct := exposure_pct * 100
    max_exposure_pct := max_total_exposure * 100
    action := if is_valid then "proceed" else "reduce_exposure" }

/-- Volatility check, `check_volatility_limit` at `risk.py` lines 91-111. -/
def check_volatility_limit (volatility max_volatility : ℚ) : VolatilityCheck :=
  let is_valid := decide (volatility ≤ max_volatility)
  { is_valid := is_valid
    current_volatility := volatility * 100
    max_volatility := max_volatility * 100
    action := if is_valid then "proceed" else "reduce_size_or_avoid" }

/-- The dictionary assembled by `check_risk_constraints`
(`risk.py` lines 157-222). -/
structure RiskChecks where
  symbol : String
  proposed_action : String
  all_checks_passed : Bool
  warnings : List String
  blockers : List String
  position_size_check : Option PositionSizeCheck := none
  exposure_check : Option ExposureCheck := none
  volatility_check : Option VolatilityCheck := none
  stop_loss_check : Option StopLossCheck := none
  recommended_action : Option String := none
  risk_signal : String
deriving Repr, DecidableEq

/-- Comprehensive risk check, `check_risk_constraints` at `risk.py` lines
114-222, with `current_positions=None → {}` and `risk_params=None → defaults`
already resolved by the caller passing `[]` / `{}`:
position-size check only for `buy`; exposure and volatility violations become
blockers only for `buy`; the stop-loss check runs only with an entry price and
a non-`buy` action, and only adds a warning.  The `.error` case is the
`ZeroDivisionError` escaping from `check_stop_loss`. -/
def check_risk_constraints (symbol proposed_action : String)
    (proposed_size current_price account_balance : ℚ)
    (current_positions : List (String × ℚ)) (entry_price : Option ℚ)
    (volatility : ℚ) (risk_params : RiskParams) : Except String RiskChecks :=
  let psc : Option PositionSizeCheck :=
    if proposed_action == "buy" then
      some (check_position_size proposed_size account_balance risk_params.max_position_pct)
    else none
  let all1 : Bool := match psc with
    | some sc => sc.is_valid
    | none => true
  let blockers1 : List String := match psc with
    | some sc => if sc.is_valid then [] else ["Position size exceeds limit"]
    | none => []
  let ec := check_exposure_limits current_positions account_balance risk_params.max_total_exposure
  let hitExposure : Bool := !ec.is_valid && (proposed_action == "buy")
  let all2 := if hitExposure then false else all1
  let blockers2 := if hitExposure then blockers1 ++ ["Total exposure exceeds limit"] else blockers1
  let vc := check_volatility_limit volatility risk_params.max_volatility
  let warnings1 : List String := if !vc.is_valid then ["High volatility detected"] else []
  let hitVol : Bool := !vc.is_valid && (proposed_action == "buy")
  let all3 := if hitVol then false else all2
  let blockers3 := if hitVol then blockers2 ++ ["Volatility too high for new positions"] else blockers2
  let stopPart : Except String (Option StopLossCheck × List String × Option String) :=
    match entry_price with
    | some ep =>
        if proposed_action == "buy" then .ok (none, warnings1, none)
        else
          (check_stop_loss current_price ep risk_params.stop_loss_pct).map (fun sc =>
            (some sc,
             if sc.triggered then warnings1 ++ ["Stop loss triggered"] else warnings1,
             if sc.triggered then some "close_position" else none))
    | none => .ok (none, warnings1, none)
  stopPart.map (fun p =>
    { symbol := symbol
      proposed_action := proposed_action
      all_checks_passed := all3
      warnings := p.2.1
      blockers := blockers3
      position_size_check := psc
      exposure_check := some ec
      volatility_check := some vc
      stop_loss_check := p.1
      recommended_action := p.2.2
      risk_signal := if all3 then "proceed" else "block" })

/-! ### RSI (from `tools/market.py`) -/

/-- The `np.diff(prices)` array (`market.py` line 24): consecutive
differences. -/
def rsiDeltas (prices : List ℚ) : List ℚ :=
  prices.tail.zipWith (fun a b => a - b) prices

/-- Python negative-index slice `l[-period:]` (`market.py` lines 28-29):
the whole list when `period = 0`, otherwise the last `min period l.length`
elements. -/
def pyLastSlice (l : List ℚ) (period : ℕ) : List ℚ :=
  if period = 0 then l else l.drop (l.length - period)

/-- Arithmetic mean, `np.mean` (`market.py` lines 28-29).  NumPy yields NaN on
an empty array; the division-by-zero convention of `ℚ` gives 0 there, and the
claims proved never reach that case. -/
def listMean (l : List ℚ) : ℚ :=
  l.sum / l.length

/-- Average gain over the last `period` deltas (`market.py` lines 25-28):
`np.where(deltas > 0, deltas, 0)` then the mean of the final slice. -/
def rsiAvgGain (prices : List ℚ) (period : ℕ) : ℚ :=
  listMean (pyLastSlice ((rsiDeltas prices).map (fun d => if 0 < d then d else 0)) period)

/-- Average loss over the last `period` deltas (`market.py` lines 26-29):
`np.where(deltas < 0, -deltas, 0)` then the mean of the final slice. -/
def rsiAvgLoss (prices : List ℚ) (period : ℕ) : ℚ :=
  listMean (pyLastSlice ((rsiDeltas prices).map (fun d => if d < 0 then -d else 0)) period)

/-- RSI, `calculate_rsi` at `market.py` lines 11-36: `50.0` with fewer than
`period+1` prices, `100.0` when the average loss is zero, else
`100 - 100/(1+rs)` with `rs = avg_gain / avg_loss`. -/
def calculate_rsi (prices : List ℚ) (period : ℕ) : ℚ :=
  if prices.length < period + 1 then 50
  else if rsiAvgLoss prices period = 0 then 100
  else 100 - 100 / (1 + rsiAvgGain prices period / rsiAvgLoss prices period)

/-! ### Risk subgraph data model (from `agents/risk/schema.py`) -/

/-- Output of the risk worker (`RiskWorkerOutput` in `schema.py`). -/
structure RiskWorkerOutput where
  stop_loss_check : Bool
  stop_loss_message : String
  position_size_check : Bool
  position_size_message : String
  exposure_check : Bool
  exposure_message : String
  all_checks_passed : Bool
  risk_level : String
deriving Repr, DecidableEq

/-- Evaluation produced by the risk evaluator (`RiskEvaluation` in
`schema.py`). -/
structure RiskEvaluation where
  is_valid : Bool
  confidence : ℚ
  quality_score : ℚ
  issues : List String
  summary : String
  recommendation : String
deriving Repr, DecidableEq

/-- State of the risk subgraph (`RiskSubgraphState` in `schema.py`). -/
structure RiskSubgraphState where
  symbol : String
  current_price : ℚ
  proposed_action : String := "buy"
  proposed_quantity : ℕ := 1
  stop_loss : Option ℚ := none
  take_profit : Option ℚ := none
  worker_output : Option RiskWorkerOutput := none
  evaluation : Option RiskEvaluation := none
  retry_count : ℕ := 0
  max_retries : ℕ := 2
  evaluator_feedback : Option String := none
  completed : Bool := false
  error : Option String := none
deriving Repr, DecidableEq

/-- Partial state update returned by a risk subgraph node (same convention as
`MarketStateUpdate`). -/
structure RiskStateUpdate where
  u_symbol : Option String := none
  u_current_price : Option ℚ := none
  u_proposed_action : Option String := none
  u_proposed_quantity : Option ℕ := none
  u_stop_loss : Option (Option ℚ) := none
  u_take_profit : Option (Option ℚ) := none
  u_worker_output : Option (Option RiskWorkerOutput) := none
  u_evaluation : Option (Option RiskEvaluation) := none
  u_retry_count : Option ℕ := none
  u_max_retries : Option ℕ := none
  u_evaluator_feedback : Option (Option String) := none
  u_completed : Option Bool := none
  u_error : Option (Option String) := none
deriving Repr, DecidableEq

/-- Modelled from the spec: the executor merge (spec sections 4.2 and 6) for
the risk subgraph state, as for `applyUpdate`. -/
def applyRiskUpdate (s : RiskSubgraphState) (u : RiskStateUpdate) : RiskSubgraphState :=
  { symbol := u.u_symbol.getD s.symbol
    current_price := u.u_current_price.getD s.current_price
    proposed_action := u.u_proposed_action.getD s.proposed_action
    proposed_quantity := u.u_proposed_quantity.getD s.proposed_quantity
    stop_loss := u.u_stop_loss.getD s.stop_loss
    take_profit := u.u_take_profit.getD s.take_profit
    worker_output := u.u_worker_output.getD s.worker_output
    evaluation := u.u_evaluation.getD s.evaluation
    retry_count := u.u_retry_count.getD s.retry_count
    max_retries := u.u_max_retries.getD s.max_retries
    evaluator_feedback := u.u_evaluator_feedback.getD s.evaluator_feedback
    completed := u.u_completed.getD s.completed
    error := u.u_error.getD s.error }

/-- The risk worker node, `risk_worker` at `agents/risk/worker.py` lines
10-100.  It calls `check_risk_constraints` with `proposed_size =
quantity * current_price`, a fixed balance of 100000, no positions,
`entry_price = state.stop_loss` and the default volatility 0.02; the built
`RiskWorkerOutput` reads `is_valid` from the sub-check dicts with default
`True` and the (never present) `message` keys with their defaults; the
stop-loss dict has no `is_valid` key, so that flag is always `True`.  On an
exception the `except` branch (lines 87-100) marks the state completed with an
error. -/
def risk_worker (s : RiskSubgraphState) : RiskStateUpdate :=
  match check_risk_constraints s.symbol s.proposed_action
      ((s.proposed_quantity : ℚ) * s.current_price) s.current_price 100000 []
      s.stop_loss (2 / 100) {} with
  | .ok checks =>
      let risk_level :=
        if !checks.all_checks_passed then "high"
        else if !checks.warnings.isEmpty then "medium"
        else "low"
      let out : RiskWorkerOutput :=
        { stop_loss_check := true
          stop_loss_message := "No stop loss check"
          position_size_check := (checks.position_size_check.map (fun c => c.is_valid)).getD true
          position_size_message := "Position size OK"
          exposure_check := (checks.exposure_check.map (fun c => c.is_valid)).getD true
          exposure_message := "Exposure OK"
          all_checks_passed := checks.all_checks_passed
          risk_level := risk_level }
      { u_symbol := some s.symbol
        u_current_price := some s.current_price
        u_proposed_action := some s.proposed_action
        u_proposed_quantity := some s.proposed_quantity
        u_stop_loss := some s.stop_loss
        u_take_profit := some s.take_profit
        u_worker_output := some (some out)
        u_evaluation := some s.evaluation
        u_completed := some false
        u_error := some none }
  | .error e =>
      { u_symbol := some s.symbol
        u_current_price := some s.current_price
        u_proposed_action := some s.proposed_action
        u_proposed_quantity := some s.proposed_quantity
        u_stop_loss := some s.stop_loss
        u_take_profit := some s.take_profit
        u_worker_output := some none
        u_evaluation := some none
        u_completed := some true
        u_error := some (some ("Risk worker failed: " ++ e)) }

/-! ### Risk evaluator (from `agents/risk/evaluator.py`) -/

/-- Per-attempt outcome of the risk evaluator's judgment chain. -/
abbrev RiskJudge := ℕ → Option RiskEvaluation

/-- First successful attempt of the risk evaluator's inner loop
(`evaluator.py` lines 96-130; unlike the market copy it re-raises on the last
attempt, so all-fail likewise reaches the outer handler). -/
def riskFirstSuccess (judge : RiskJudge) (n : ℕ) : Option RiskEvaluation :=
  (List.range n).findSome? judge

/-- Default evaluation built in the risk evaluator's outer `except` handler
(`evaluator.py` lines 175-182). -/
def defaultFailedRiskEvaluation (msg : String) : RiskEvaluation :=
  { is_valid := false
    confidence := 0
    quality_score := 0
    issues := ["Evaluation failed: " ++ msg]
    summary := "Evaluation error"
    recommendation := "Unable to evaluate - proceed with extreme caution" }

/-- Feedback string for a worker retry (`evaluator.py` lines 142-145; numeric
formatting elided). -/
def riskValidationFeedback (e : RiskEvaluation) : String :=
  "Validation failed. Issues: " ++ String.intercalate ", " e.issues

/-- Message of the judgment fault re-raised by the last inner attempt (the
judge abstraction keeps no message text). -/
def riskJudgeFailureMsg : String :=
  "judgment invocation failed"

/-- The risk evaluator node, `risk_evaluator` at `evaluator.py` lines 30-185:
same shape as the market evaluator; on the success path (lines 148-162) the
constructor passes every field including the incremented `retry_count` and
`completed=evaluation.is_valid`; the outer handler (lines 164-185) passes a
default invalid evaluation and `completed=True` without `retry_count`,
`max_retries` or `evaluator_feedback`. -/
def risk_evaluator (judge : RiskJudge) (s : RiskSubgraphState) : RiskStateUpdate :=
  match s.worker_output with
  | none =>
      { u_symbol := some s.symbol
        u_current_price := some s.current_price
        u_proposed_action := some s.proposed_action
        u_proposed_quantity := some s.proposed_quantity
        u_stop_loss := some s.stop_loss
        u_take_profit := some s.take_profit
        u_worker_output := some s.worker_output
        u_evaluation := some (some (defaultFailedRiskEvaluation "No worker output to evaluate"))
        u_completed := some true
        u_error := some (some "Evaluator failed: No worker output to evaluate") }
  | some _ =>
      match riskFirstSuccess judge 3 with
      | some evaluation =>
          { u_symbol := some s.symbol
            u_current_price := some s.current_price
            u_proposed_action := some s.proposed_action
            u_proposed_quantity := some s.proposed_quantity
            u_stop_loss := some s.stop_loss
            u_take_profit := some s.take_profit
            u_worker_output := some s.worker_output
            u_evaluation := some (some evaluation)
            u_retry_count := some (if evaluation.is_valid then s.retry_count else s.retry_count + 1)
            u_max_retries := some s.max_retries
            u_evaluator_feedback :=
              some (if evaluation.is_valid then none
                    else some (riskValidationFeedback evaluation))
            u_completed := some evaluation.is_valid
            u_error := some none }
      | none =>
          { u_symbol := some s.symbol
            u_current_price := some s.current_price
            u_proposed_action := some s.proposed_action
            u_proposed_quantity := some s.proposed_quantity
            u_stop_loss := some s.stop_loss
            u_take_profit := some s.take_profit
            u_worker_output := some s.worker_output
            u_evaluation := some (some (defaultFailedRiskEvaluation riskJudgeFailureMsg))
            u_completed := some true
            u_error := some (some ("Evaluator failed: " ++ riskJudgeFailureMsg)) }

/-! ### Risk subgraph routing with human escalation (from `agents/risk/graph.py`) -/

/-- Targets of the risk subgraph's conditional edge. -/
inductive RiskRoute where
  | worker
  | endRoute
deriving Repr, DecidableEq

/-- The risk decider `should_retry_worker` at `agents/risk/graph.py` lines
13-73, parameterised by the human answer (already stripped and lowercased as
in line 55): `END` when the evaluation is absent, valid, or retries are
exhausted; otherwise the user is asked — answer `a` raises
`Exception("User aborted risk analysis")` (line 60), answer `n` ends the
subgraph, anything else retries the worker. -/
def risk_should_retry_worker (choice : String) (s : RiskSubgraphState) :
    Except String RiskRoute :=
  match s.evaluation with
  | none => .ok .endRoute
  | some e =>
      if e.is_valid then .ok .endRoute
      else if s.retry_count > s.max_retries then .ok .endRoute
      else if choice == "a" then .error "User aborted risk analysis"
      else if choice == "n" then .ok .endRoute
      else .ok .worker

/-- Nodes of the compiled risk subgraph. -/
inductive RiskNode where
  | worker
  | evaluator
  | terminal
deriving Repr, DecidableEq

/-- Executor configuration for a risk subgraph run. -/
structure RiskConfig where
  node : RiskNode
  state : RiskSubgraphState
  evals : ℕ
deriving Repr, DecidableEq

/-- Modelled from the spec: one executor step of the compiled risk subgraph
(spec section 4.2), over the graph wired in `create_risk_subgraph`
(`graph.py` lines 92-109).  An exception raised by the decider propagates out
of the step (and hence out of `invoke`). -/
def riskStep (judge : ℕ → RiskJudge) (choice : ℕ → String) (c : RiskConfig) :
    Except String RiskConfig :=
  match c.node with
  | .worker =>
      .ok { node := .evaluator
            state := applyRiskUpdate c.state (risk_worker c.state)
            evals := c.evals }
  | .evaluator =>
      let s := applyRiskUpdate c.state (risk_evaluator (judge c.evals) c.state)
      match risk_should_retry_worker (choice c.evals) s with
      | .error msg => .error msg
      | .ok .worker => .ok { node := .worker, state := s, evals := c.evals + 1 }
      | .ok .endRoute => .ok { node := .terminal, state := s, evals := c.evals + 1 }
  | .terminal => .ok c

/-- Modelled from the spec: the executor loop with a finite step budget
(spec section 4.2); a decider exception aborts `invoke` with that error. -/
def riskInvoke (judge : ℕ → RiskJudge) (choice : ℕ → String) :
    ℕ → RiskConfig → Except String RiskConfig
  | 0, c => .ok c
  | fuel + 1, c =>
      if c.node = RiskNode.terminal then .ok c
      else
        match riskStep judge choice c with
        | .error e => .error e
        | .ok c2 => riskInvoke judge choice fuel c2

/-! ### Parent graph model (from `graph/hierarchical_graph.py`) -/

/-- Targets of the parent graph's conditional-edge table
(`create_hierarchical_graph`, lines 494-520; the ML subgraph is disabled in
the source and not a declared target). -/
inductive ParentRoute where
  | market_subgraph
  | sentiment_subgraph
  | risk_subgraph
  | final_decision
  | endRoute
deriving Repr, DecidableEq

/-- The declared conditional-edge targets of the parent graph. -/
def routerTargets : List ParentRoute :=
  [.market_subgraph, .sentiment_subgraph, .risk_subgraph, .final_decision, .endRoute]

/-- The dict form of a `FinalTradingDecision` (`hierarchical_graph.py` lines
341-353) as stored in the context by `final_decision_node`; the fallback dict
at lines 433-439 omits the two optional levels. -/
structure FinalDecisionDict where
  action : String
  confidence : ℚ
  quantity : ℕ
  reasoning : String
  risk_approved : Bool
  stop_loss : Option ℚ := none
  take_profit : Option ℚ := none
deriving Repr, DecidableEq

/-- Dict stored into `context.<branch>_agent_output` by the market/sentiment
bridge nodes; the payload content is irrelevant to the claims and kept
opaque.  A stored dict is always non-empty, so presence coincides with Python
truthiness. -/
structure AgentOutputDict where
  payload : Option String := none
  error : Option String := none
deriving Repr, DecidableEq

/-- Dict stored into `context.risk_agent_output` by `risk_subgraph_node`
(lines 208-218 on success, line 224 on an exception). -/
structure RiskAgentOutputDict where
  worker_dump : Option RiskWorkerOutput := none
  evaluation : Option RiskEvaluation := none
  error : Option String := none
deriving Repr, DecidableEq

/-- The fields of `DecisionContext` (`context/schema.py` lines 85-133) that
the embedded parent-graph nodes read or write.  `DecisionContext` has no
`error` field. -/
structure DecisionCtx where
  symbol : String := ""
  prices : List ℚ := []
  volumes : List ℚ := []
  market_agent_output : Option AgentOutputDict := none
  ml_agent_output : Option AgentOutputDict := none
  sentiment_agent_output : Option AgentOutputDict := none
  risk_agent_output : Option RiskAgentOutputDict := none
  decision_agent_output : Option FinalDecisionDict := none
  final_decision : Option FinalDecisionDict := none
deriving Repr, DecidableEq

/-- The deterministic fallback router, `fallback_router` at
`hierarchical_graph.py` lines 320-334: first absent branch output in the fixed
order market → sentiment → risk, else `final_decision` if unset, else `END`.
(The stored agent-output dicts are never empty, so Python truthiness is
presence.) -/
def fallback_router (ctx : DecisionCtx) : ParentRoute :=
  if ctx.market_agent_output.isNone then .market_subgraph
  else if ctx.sentiment_agent_output.isNone then .sentiment_subgraph
  else if ctx.risk_agent_output.isNone then .risk_subgraph
  else if ctx.final_decision.isNone then .final_decision
  else .endRoute

/-- Whether a branch output is still absent from the context (used by the
spec-worded router below). -/
def branchAbsent (ctx : DecisionCtx) : ParentRoute → Bool
  | .market_subgraph => ctx.market_agent_output.isNone
  | .sentiment_subgraph => ctx.sentiment_agent_output.isNone
  | .risk_subgraph => ctx.risk_agent_output.isNone
  | _ => false

/-- The fixed priority order of the fallback (the branches wired in the
graph, in the order the source checks them). -/
def fallbackPriority : List ParentRoute :=
  [.market_subgraph, .sentiment_subgraph, .risk_subgraph]

/-- Spec-worded fallback router, stated from the claim: the first branch in
the fixed priority order whose output is still absent, otherwise finalize if
the final decision is unset, otherwise the terminal marker.  Used only to be
compared with `fallback_router`. -/
def specFallbackRouter (ctx : DecisionCtx) : ParentRoute :=
  match fallbackPriority.find? (branchAbsent ctx) with
  | some r => r
  | none => if ctx.final_decision.isNone then .final_decision else .endRoute

/-- The aggregator node, `final_decision_node` at `hierarchical_graph.py`
lines 356-441, with the judgment chain's outcome as a parameter: on success
(lines 414-426) the decision dict is stored in `final_decision` and
`decision_agent_output`; on any failure (lines 430-439) the safe fallback
decision is stored in `final_decision`. -/
def final_decision_node (judge : Except String FinalDecisionDict)
    (ctx : DecisionCtx) : DecisionCtx :=
  match judge with
  | .ok d => { ctx with final_decision := some d, decision_agent_output := some d }
  | .error e =>
      let fallback : FinalDecisionDict :=
        { action := "hold"
          confidence := 0
          quantity := 0
          reasoning := "Error in decision synthesis: " ++ e
          risk_approved := false }
      { ctx with final_decision := some fallback }

/-- The initial risk subgraph state built by `risk_subgraph_node`
(`hierarchical_graph.py` lines 186-203): last price (default 100), and
action/quantity from a preliminary decision when present (defaults
`buy` / 1). -/
def mkRiskInit (ctx : DecisionCtx) : RiskSubgraphState :=
  { symbol := ctx.symbol
    current_price := (ctx.prices.getLast?).getD 100
    proposed_action := (ctx.decision_agent_output.map (fun d => d.action)).getD "buy"
    proposed_quantity := (ctx.decision_agent_output.map (fun d => d.quantity)).getD 1 }

/-- How `risk_subgraph_node` copies a finished risk subgraph state back into
the context (`hierarchical_graph.py` lines 208-218). -/
def storeRiskResult (prev : Option RiskAgentOutputDict) (r : RiskSubgraphState) :
    Option RiskAgentOutputDict :=
  let o1 : Option RiskAgentOutputDict :=
    match r.worker_output with
    | some w => some { worker_dump := some w }
    | none => prev
  let o2 : Option RiskAgentOutputDict :=
    match r.evaluation with
    | some ev => some { o1.getD {} with evaluation := some ev }
    | none => o1
  match r.error with
  | some err => some { o2.getD {} with error := some err }
  | none => o2

/-- The risk bridge node, `risk_subgraph_node` at `hierarchical_graph.py`
lines 181-226: builds the subgraph state, invokes the compiled risk subgraph,
and copies the result back; ANY exception escaping the `try` block — including
the user-abort exception raised inside the subgraph's decider — is caught at
lines 222-224 and recorded as `risk_agent_output = {"error": str(e)}`, after
which the node returns normally and the pipeline continues. -/
def risk_subgraph_node (judge : ℕ → RiskJudge) (choice : ℕ → String) (fuel : ℕ)
    (ctx : DecisionCtx) : DecisionCtx :=
  match riskInvoke judge choice fuel { node := .worker, state := mkRiskInit ctx, evals := 0 } with
  | .error e => { ctx with risk_agent_output := some { error := some e } }
  | .ok c => { ctx with risk_agent_output := storeRiskResult ctx.risk_agent_output c.state }

/-- A concrete always-rejecting risk evaluation for the abort scenario. -/
def riskRejectingEvaluation : RiskEvaluation :=
  { is_valid := false
    confidence := 1/10
    quality_score := 1/5
    issues := ["missing volatility context"]
    summary := "incomplete risk analysis"
    recommendation := "add checks" }

/-- Context of the abort scenario: market and sentiment branches already
completed, risk not yet run, no decision yet. -/
def abortCtx : DecisionCtx :=
  { symbol := "ETH"
    prices := [100, 101]
    volumes := [1000, 1100]
    market_agent_output := some { payload := some "market facts" }
    sentiment_agent_output := some { payload := some "sentiment facts" } }

/-! ## Theorems and proofs -/

/-! ### Step lemmas for the market subgraph executor -/

lemma firstSuccess3 (judge : MarketJudge) (e : MarketEvaluation) (h : judge 0 = some e) :
    firstSuccess judge 3 = some e := by
  have hr : List.range 3 = [0, 1, 2] := rfl
  simp [firstSuccess, hr, List.findSome?, h]

lemma marketStep_worker (ind : MarketSubgraphState → Option MarketWorkerOutput)
    (judge : ℕ → MarketJudge) (s : MarketSubgraphState) (k : ℕ)
    (out : MarketWorkerOutput) (h : ind s = some out) :
    marketStep ind judge ⟨.worker, s, k⟩ =
      ⟨.evaluator,
       { s with worker_output := some out, completed := false, error := none }, k⟩ := by
  simp [marketStep, market_worker, h, applyUpdate]

lemma marketStep_evaluator_reject_continue
    (ind : MarketSubgraphState → Option MarketWorkerOutput)
    (judge : ℕ → MarketJudge) (s : MarketSubgraphState) (k : ℕ)
    (out : MarketWorkerOutput) (e : MarketEvaluation)
    (hw : s.worker_output = some out) (h0 : judge k 0 = some e) (hv : e.is_valid = false)
    (hc : ¬ s.retry_count + 1 > s.max_retries) :
    marketStep ind judge ⟨.evaluator, s, k⟩ =
      ⟨.worker,
       { s with evaluation := some e, retry_count := s.retry_count + 1,
                evaluator_feedback := some (validationFeedback e),
                completed := false, error := none }, k + 1⟩ := by
  have hfs : firstSuccess (judge k) 3 = some e := firstSuccess3 (judge k) e h0
  simp [marketStep, market_evaluator, hw, hfs, hv, hc, applyUpdate, should_retry_worker]

lemma marketStep_evaluator_reject_exhaust
    (ind : MarketSubgraphState → Option MarketWorkerOutput)
    (judge : ℕ → MarketJudge) (s : MarketSubgraphState) (k : ℕ)
    (out : MarketWorkerOutput) (e : MarketEvaluation)
    (hw : s.worker_output = some out) (h0 : judge k 0 = some e) (hv : e.is_valid = false)
    (hc : s.retry_count + 1 > s.max_retries) :
    marketStep ind judge ⟨.evaluator, s, k⟩ =
      ⟨.terminal,
       { s with evaluation := some e, retry_count := s.retry_count + 1,
                evaluator_feedback := some (validationFeedback e),
                completed := false, error := none }, k + 1⟩ := by
  have hfs : firstSuccess (judge k) 3 = some e := firstSuccess3 (judge k) e h0
  simp [marketStep, market_evaluator, hw, hfs, hv, hc, applyUpdate, should_retry_worker]

/-- Trace characterisation of an always-rejected run: as long as retries
remain, every even step lands on the worker with `retry_count` equal to the
number of evaluator invocations so far. -/
lemma market_trace_even (ind : MarketSubgraphState → Option MarketWorkerOutput)
    (judge : ℕ → MarketJudge) (sym : String) (pr vo : List ℚ) (m : ℕ)
    (hind : ∀ s, (ind s).isSome)
    (hj : ∀ k n, ∃ e, judge k n = some e ∧ e.is_valid = false) :
    ∀ j, j ≤ m →
      ∃ s, (marketStep ind judge)^[2 * j] (mkMarketConfig sym pr vo m) =
          ⟨.worker, s, j⟩ ∧ s.retry_count = j ∧ s.max_retries = m := by
  intro j
  induction j with
  | zero =>
      intro _
      exact ⟨mkMarketInit sym pr vo m, rfl, rfl, rfl⟩
  | succ j ih =>
      intro hle
      obtain ⟨s, hrun, hrc, hmr⟩ := ih (Nat.le_of_succ_le hle)
      obtain ⟨out, hout⟩ := Option.isSome_iff_exists.mp (hind s)
      obtain ⟨e, he0, hev⟩ := hj j 0
      have h2 : 2 * (j + 1) = (2 * j + 1) + 1 := by ring
      have hstep1 : (marketStep ind judge)^[2 * j + 1] (mkMarketConfig sym pr vo m) =
          ⟨.evaluator,
           { s with worker_output := some out, completed := false, error := none }, j⟩ := by
        rw [Function.iterate_succ_apply', hrun]
        exact marketStep_worker ind judge s j out hout
      refine ⟨{ s with
          worker_output := some out
          evaluation := some e
          retry_count := s.retry_count + 1
          evaluator_feedback := some (validationFeedback e)
          completed := false
          error := none }, ?_, ?_, ?_⟩
      · rw [h2, Function.iterate_succ_apply', hstep1]
        exact marketStep_evaluator_reject_continue ind judge _ j out e rfl he0 hev
          (by show ¬ s.retry_count + 1 > s.max_retries
              rw [hrc, hmr]
              exact not_lt.mpr hle)
      · show s.retry_count + 1 = j + 1
        rw [hrc]
      · show s.max_retries = m
        exact hmr

/-- C1 (amended).  For every market worker↔evaluator subgraph run whose worker
computation succeeds and whose judgment function returns `isValid=false` on
every call, the executor reaches the terminal marker at step `2*(maxRetries+1)`
and at no earlier step, after exactly `maxRetries+1` evaluator invocations
(each a rejection); the final state has `retry_count = maxRetries+1`, an
invalid evaluation — and `completed = false` (not `true` as claimed: the
evaluator sets `completed=evaluation.is_valid`, and no later node changes it on
the retry-exhausted path). -/
theorem market_always_reject_run
    (ind : MarketSubgraphState → Option MarketWorkerOutput)
    (judge : ℕ → MarketJudge) (sym : String) (pr vo : List ℚ) (m : ℕ)
    (hind : ∀ s, (ind s).isSome)
    (hj : ∀ k n, ∃ e, judge k n = some e ∧ e.is_valid = false) :
    ((marketStep ind judge)^[2 * (m + 1)] (mkMarketConfig sym pr vo m)).node = .terminal ∧
    ((marketStep ind judge)^[2 * (m + 1)] (mkMarketConfig sym pr vo m)).state.retry_count = m + 1 ∧
    ((marketStep ind judge)^[2 * (m + 1)] (mkMarketConfig sym pr vo m)).evals = m + 1 ∧
    ((marketStep ind judge)^[2 * (m + 1)] (mkMarketConfig sym pr vo m)).state.completed = false ∧
    (∃ e, ((marketStep ind judge)^[2 * (m + 1)]
        (mkMarketConfig sym pr vo m)).state.evaluation = some e ∧ e.is_valid = false) ∧
    (∀ n, n < 2 * (m + 1) →
      ((marketStep ind judge)^[n] (mkMarketConfig sym pr vo m)).node ≠ .terminal) := by
  obtain ⟨s, hrun, hrc, hmr⟩ :=
    market_trace_even ind judge sym pr vo m hind hj m le_rfl
  obtain ⟨out, hout⟩ := Option.isSome_iff_exists.mp (hind s)
  obtain ⟨e, he0, hev⟩ := hj m 0
  have h2 : 2 * (m + 1) = (2 * m + 1) + 1 := by ring
  have hstep1 : (marketStep ind judge)^[2 * m + 1] (mkMarketConfig sym pr vo m) =
      ⟨.evaluator,
       { s with worker_output := some out, completed := false, error := none }, m⟩ := by
    rw [Function.iterate_succ_apply', hrun]
    exact marketStep_worker ind judge s m out hout
  have hfinal : (marketStep ind judge)^[2 * (m + 1)] (mkMarketConfig sym pr vo m) =
      ⟨.terminal,
       { s with
          worker_output := some out
          evaluation := some e
          retry_count := s.retry_count + 1
          evaluator_feedback := some (validationFeedback e)
          completed := false
          error := none }, m + 1⟩ := by
    rw [h2, Function.iterate_succ_apply', hstep1]
    exact marketStep_evaluator_reject_exhaust ind judge _ m out e rfl he0 hev
      (by show s.retry_count + 1 > s.max_retries
          rw [hrc, hmr]
          exact Nat.lt_succ_self m)
  refine ⟨by rw [hfinal], by rw [hfinal]; show s.retry_count + 1 = m + 1; rw [hrc],
    by rw [hfinal], by rw [hfinal], ⟨e, by rw [hfinal], hev⟩, ?_⟩
  intro n hn
  rcases Nat.even_or_odd n with hpar | hpar
  · obtain ⟨j, hj2⟩ := hpar
    have hjn : n = 2 * j := by omega
    have hjm : j ≤ m := by omega
    obtain ⟨t, htrun, _, _⟩ := market_trace_even ind judge sym pr vo m hind hj j hjm
    rw [hjn, htrun]
    simp
  · obtain ⟨j, hj2⟩ := hpar
    have hjm : j ≤ m := by omega
    obtain ⟨t, htrun, _, _⟩ := market_trace_even ind judge sym pr vo m hind hj j hjm
    obtain ⟨outj, houtj⟩ := Option.isSome_iff_exists.mp (hind t)
    have : (marketStep ind judge)^[2 * j + 1] (mkMarketConfig sym pr vo m) =
        ⟨.evaluator,
         { t with worker_output := some outj, completed := false, error := none }, j⟩ := by
      rw [Function.iterate_succ_apply', htrun]
      exact marketStep_worker ind judge t j outj houtj
    rw [hj2, this]
    simp

/-- Witness for `market_always_reject_run`: the Scenario A instance
(`maxRetries=2`, always-rejecting judgment) terminates at step 6 with
`retry_count = 3` after exactly 3 rejections, and `completed = false`. -/
theorem market_always_reject_run_witness :
    ((marketStep (fun _ => some sampleWorkerOutput) (fun _ _ => some rejectingEvaluation))^[2 * (2 + 1)]
      (mkMarketConfig "ETH" [1, 2] [3, 4] 2)).node = .terminal ∧
    ((marketStep (fun _ => some sampleWorkerOutput) (fun _ _ => some rejectingEvaluation))^[2 * (2 + 1)]
      (mkMarketConfig "ETH" [1, 2] [3, 4] 2)).state.retry_count = 2 + 1 ∧
    ((marketStep (fun _ => some sampleWorkerOutput) (fun _ _ => some rejectingEvaluation))^[2 * (2 + 1)]
      (mkMarketConfig "ETH" [1, 2] [3, 4] 2)).evals = 2 + 1 ∧
    ((marketStep (fun _ => some sampleWorkerOutput) (fun _ _ => some rejectingEvaluation))^[2 * (2 + 1)]
      (mkMarketConfig "ETH" [1, 2] [3, 4] 2)).state.completed = false := by
  have h := market_always_reject_run (fun _ => some sampleWorkerOutput)
    (fun _ _ => some rejectingEvaluation) "ETH" [1, 2] [3, 4] 2
    (fun _ => rfl) (fun _ _ => ⟨rejectingEvaluation, rfl, rfl⟩)
  exact ⟨h.1, h.2.1, h.2.2.1, h.2.2.2.1⟩

/-- Counterexample to C1 as stated: in the Scenario A run (`maxRetries=2`,
judgment always rejecting) the terminal state indeed has `retry_count = 3`,
but `completed` is not `true`. -/
theorem market_scenarioA_not_completed :
    ((marketStep (fun _ => some sampleWorkerOutput) (fun _ _ => some rejectingEvaluation))^[6]
      (mkMarketConfig "ETH" [1, 2] [3, 4] 2)).node = .terminal ∧
    ((marketStep (fun _ => some sampleWorkerOutput) (fun _ _ => some rejectingEvaluation))^[6]
      (mkMarketConfig "ETH" [1, 2] [3, 4] 2)).state.retry_count = 3 ∧
    ((marketStep (fun _ => some sampleWorkerOutput) (fun _ _ => some rejectingEvaluation))^[6]
      (mkMarketConfig "ETH" [1, 2] [3, 4] 2)).state.completed ≠ true := by
  refine ⟨rfl, rfl, ?_⟩
  decide

/-- C2 (amended).  `retry_count` never decreases across node invocations: the
worker leaves it unchanged (on both its paths), and the evaluator increments
it by exactly one when its judgment call succeeded with `isValid=false`,
leaving it unchanged otherwise — in particular also unchanged on the
internal-failure path, even though that path produces an `isValid=false`
default evaluation.  Consequently every executor step is non-decreasing. -/
theorem retry_count_never_decreases
    (ind : MarketSubgraphState → Option MarketWorkerOutput)
    (judge : MarketJudge) (judgeSeq : ℕ → MarketJudge)
    (s : MarketSubgraphState) (c : MarketConfig) :
    (applyUpdate s (market_worker ind s)).retry_count = s.retry_count ∧
    (applyUpdate s (market_evaluator judge s)).retry_count =
      (match s.worker_output, firstSuccess judge 3 with
       | some _, some e => if e.is_valid then s.retry_count else s.retry_count + 1
       | _, _ => s.retry_count) ∧
    s.retry_count ≤ (applyUpdate s (market_evaluator judge s)).retry_count ∧
    c.state.retry_count ≤ (marketStep ind judgeSeq c).state.retry_count := by
  have hworker : ∀ t : MarketSubgraphState,
      (applyUpdate t (market_worker ind t)).retry_count = t.retry_count := by
    intro t
    cases h : ind t <;> simp [market_worker, h, applyUpdate]
  have heval : ∀ (jg : MarketJudge) (t : MarketSubgraphState),
      (applyUpdate t (market_evaluator jg t)).retry_count =
        (match t.worker_output, firstSuccess jg 3 with
         | some _, some e => if e.is_valid then t.retry_count else t.retry_count + 1
         | _, _ => t.retry_count) := by
    intro jg t
    cases hw : t.worker_output <;> cases hf : firstSuccess jg 3 <;>
      simp [market_evaluator, hw, hf, applyUpdate]
  have hmatch : ∀ (a : Option MarketWorkerOutput) (b : Option MarketEvaluation) (r : ℕ),
      r ≤ (match a, b with
           | some _, some e => if e.is_valid then r else r + 1
           | _, _ => r) := by
    intro a b r
    rcases a with _ | a <;> rcases b with _ | e
    · exact le_rfl
    · exact le_rfl
    · exact le_rfl
    · show r ≤ if e.is_valid then r else r + 1
      by_cases hv : e.is_valid
      · rw [if_pos hv]
      · rw [if_neg hv]
        exact Nat.le_succ r
  have hevalLe : ∀ (jg : MarketJudge) (t : MarketSubgraphState),
      t.retry_count ≤ (applyUpdate t (market_evaluator jg t)).retry_count := by
    intro jg t
    rw [heval jg t]
    exact hmatch t.worker_output (firstSuccess jg 3) t.retry_count
  refine ⟨hworker s, heval judge s, hevalLe judge s, ?_⟩
  rcases c with ⟨node, t, k⟩
  cases node
  · exact le_of_eq (hworker t).symm
  · exact hevalLe (judgeSeq k) t
  · exact le_rfl

/-- Counterexample to C2 as stated: when every judgment attempt fails, the
evaluator produces an evaluation with `isValid=false` yet leaves `retry_count`
unchanged instead of incrementing it by one. -/
theorem evaluator_failure_no_increment :
    ((applyUpdate sampleReadyState (market_evaluator (fun _ => none) sampleReadyState)).evaluation.map
      MarketEvaluation.is_valid = some false) ∧
    (applyUpdate sampleReadyState (market_evaluator (fun _ => none) sampleReadyState)).retry_count ≠
      sampleReadyState.retry_count + 1 := by
  exact ⟨rfl, by decide⟩

/-- C3 (amended).  When the evaluator-exit decision is taken after a judgment
call returned an `isValid=false` evaluation and the incremented `retry_count`
exceeds `max_retries`, the subgraph transitions to the terminal marker; the
decision leaves the state untouched, so the failing evaluation (with its
issues) is preserved for the caller and `error` is left unset — but
`completed` is `false`, not `true`. -/
theorem evaluator_exit_preserves_issues
    (ind : MarketSubgraphState → Option MarketWorkerOutput)
    (judge : ℕ → MarketJudge) (s : MarketSubgraphState) (k : ℕ)
    (out : MarketWorkerOutput) (e : MarketEvaluation)
    (hw : s.worker_output = some out) (h0 : judge k 0 = some e) (hv : e.is_valid = false)
    (hex : s.retry_count + 1 > s.max_retries) :
    (marketStep ind judge ⟨.evaluator, s, k⟩).node = .terminal ∧
    should_retry_worker (marketStep ind judge ⟨.evaluator, s, k⟩).state = .endRoute ∧
    (marketStep ind judge ⟨.evaluator, s, k⟩).state.evaluation = some e ∧
    (marketStep ind judge ⟨.evaluator, s, k⟩).state.error = none ∧
    (marketStep ind judge ⟨.evaluator, s, k⟩).state.completed = false := by
  have h := marketStep_evaluator_reject_exhaust ind judge s k out e hw h0 hv hex
  rw [h]
  refine ⟨rfl, ?_, rfl, rfl, rfl⟩
  show should_retry_worker _ = .endRoute
  simp [should_retry_worker, hv]
  exact hex

/-- Witness for `evaluator_exit_preserves_issues` at a concrete exhausted
state (`retry_count = 2`, `max_retries = 2`, rejecting judgment). -/
theorem evaluator_exit_preserves_issues_witness :
    (marketStep (fun _ => some sampleWorkerOutput) (fun _ _ => some rejectingEvaluation)
      ⟨.evaluator, { sampleReadyState with retry_count := 2 }, 2⟩).node = .terminal ∧
    should_retry_worker (marketStep (fun _ => some sampleWorkerOutput)
      (fun _ _ => some rejectingEvaluation)
      ⟨.evaluator, { sampleReadyState with retry_count := 2 }, 2⟩).state = .endRoute ∧
    (marketStep (fun _ => some sampleWorkerOutput) (fun _ _ => some rejectingEvaluation)
      ⟨.evaluator, { sampleReadyState with retry_count := 2 }, 2⟩).state.evaluation =
        some rejectingEvaluation ∧
    (marketStep (fun _ => some sampleWorkerOutput) (fun _ _ => some rejectingEvaluation)
      ⟨.evaluator, { sampleReadyState with retry_count := 2 }, 2⟩).state.error = none ∧
    (marketStep (fun _ => some sampleWorkerOutput) (fun _ _ => some rejectingEvaluation)
      ⟨.evaluator, { sampleReadyState with retry_count := 2 }, 2⟩).state.completed = false :=
  evaluator_exit_preserves_issues (fun _ => some sampleWorkerOutput)
    (fun _ _ => some rejectingEvaluation) { sampleReadyState with retry_count := 2 } 2
    sampleWorkerOutput rejectingEvaluation rfl rfl rfl (by decide)

/-- Counterexample to C3 as stated: at a concrete exhausted exit (invalid
evaluation, `retry_count = 3 > max_retries = 2`) the decision does go to the
terminal marker with issues preserved and `error` unset, but the final state
does not have `completed = true`. -/
theorem evaluator_exit_not_completed :
    (marketStep (fun _ => some sampleWorkerOutput) (fun _ _ => some rejectingEvaluation)
      ⟨.evaluator, { sampleReadyState with retry_count := 2, evaluator_feedback := some "x" }, 0⟩).node =
        .terminal ∧
    (marketStep (fun _ => some sampleWorkerOutput) (fun _ _ => some rejectingEvaluation)
      ⟨.evaluator, { sampleReadyState with retry_count := 2, evaluator_feedback := some "x" }, 0⟩).state.retry_count = 3 ∧
    (marketStep (fun _ => some sampleWorkerOutput) (fun _ _ => some rejectingEvaluation)
      ⟨.evaluator, { sampleReadyState with retry_count := 2, evaluator_feedback := some "x" }, 0⟩).state.completed ≠ true := by
  refine ⟨rfl, rfl, ?_⟩
  decide

/-- C4 (code bug).  After the evaluator's internal-failure path — which sets
`completed=true` together with an `is_valid=false` default evaluation and
leaves `retry_count` at 0 — `should_retry_worker` ignores `completed` and
routes back to the worker: the worker is invoked again in the same run even
though the state has `completed=true`. -/
theorem completed_true_reenters_worker :
    ((marketStep (fun _ => some sampleWorkerOutput) (fun _ _ => none))^[2]
      (mkMarketConfig "ETH" [1, 2] [3, 4] 2)).state.completed = true ∧
    ((marketStep (fun _ => some sampleWorkerOutput) (fun _ _ => none))^[2]
      (mkMarketConfig "ETH" [1, 2] [3, 4] 2)).node = .worker ∧
    should_retry_worker ((marketStep (fun _ => some sampleWorkerOutput) (fun _ _ => none))^[2]
      (mkMarketConfig "ETH" [1, 2] [3, 4] 2)).state = .worker ∧
    ((marketStep (fun _ => some sampleWorkerOutput) (fun _ _ => none))^[3]
      (mkMarketConfig "ETH" [1, 2] [3, 4] 2)).node = .evaluator := by
  exact ⟨rfl, rfl, rfl, rfl⟩

example :
    (marketStep (fun _ => some sampleWorkerOutput) (fun _ _ => some rejectingEvaluation)
      (mkMarketConfig "BTC" [1, 2] [3, 4] 2)).node = MarketNode.evaluator := by
  rfl

example :
    ((marketStep (fun _ => some sampleWorkerOutput) (fun _ _ => some rejectingEvaluation))^[2]
      (mkMarketConfig "BTC" [1, 2] [3, 4] 2)).state.retry_count = 1 := by
  rfl

example :
    ((marketStep (fun _ => some sampleWorkerOutput) (fun _ _ => some rejectingEvaluation))^[6]
      (mkMarketConfig "BTC" [1, 2] [3, 4] 2)).node = MarketNode.terminal := by
  rfl

example :
    ((marketStep (fun _ => some sampleWorkerOutput) (fun _ _ => some rejectingEvaluation))^[5]
      (mkMarketConfig "BTC" [1, 2] [3, 4] 2)).node = MarketNode.evaluator := by
  rfl

example :
    ((marketStep (fun _ => some sampleWorkerOutput) (fun _ _ => some rejectingEvaluation))^[6]
      (mkMarketConfig "BTC" [1, 2] [3, 4] 2)).state.completed = false := by
  rfl

example :
    ((marketStep (fun _ => some sampleWorkerOutput) (fun _ _ => some rejectingEvaluation))^[6]
      (mkMarketConfig "BTC" [1, 2] [3, 4] 2)).state.retry_count = 3 := by
  rfl

/-- C5 (code bug).  In a run where the risk evaluation fails and the human
escalation answers abort, the decider's exception does leave the risk
subgraph's `invoke` — but `risk_subgraph_node` catches it, records it inside
`risk_agent_output`, and returns normally: the router then continues to
`final_decision`, which still writes a final decision.  The parent pipeline
neither stops nor reports an error (the context has no error field), refuting
the claimed immediate abort. -/
theorem user_abort_swallowed :
    riskInvoke (fun _ _ => some riskRejectingEvaluation) (fun _ => "a") 10
      { node := .worker, state := mkRiskInit abortCtx, evals := 0 } =
      .error "User aborted risk analysis" ∧
    (risk_subgraph_node (fun _ _ => some riskRejectingEvaluation) (fun _ => "a") 10
      abortCtx).risk_agent_output =
      some { worker_dump := none, evaluation := none,
             error := some "User aborted risk analysis" } ∧
    fallback_router (risk_subgraph_node (fun _ _ => some riskRejectingEvaluation)
      (fun _ => "a") 10 abortCtx) = .final_decision ∧
    (final_decision_node (.error "synthesis failed")
      (risk_subgraph_node (fun _ _ => some riskRejectingEvaluation) (fun _ => "a") 10
        abortCtx)).final_decision ≠ none := by
  refine ⟨rfl, rfl, rfl, ?_⟩
  decide

/-- C6.  The aggregator always writes a final decision: for any judgment
outcome the node stores one, and on a failed judgment it stores exactly the
safe fallback decision (action hold, confidence 0, quantity 0, risk not
approved, reasoning describing the failure). -/
theorem final_decision_always_set (ctx : DecisionCtx)
    (judge : Except String FinalDecisionDict) (e : String) :
    (final_decision_node judge ctx).final_decision ≠ none ∧
    (final_decision_node (.error e) ctx).final_decision =
      some { action := "hold", confidence := 0, quantity := 0,
             reasoning := "Error in decision synthesis: " ++ e,
             risk_approved := false } := by
  constructor
  · cases judge <;> simp [final_decision_node]
  · rfl

/-- C7.  The deterministic fallback router is pure and total: on every
context it agrees with the spec-worded rule (first absent branch in the fixed
priority order, else finalize if the final decision is unset, else terminal)
and always returns a declared conditional-edge target. -/
theorem fallback_router_total (ctx : DecisionCtx) :
    fallback_router ctx = specFallbackRouter ctx ∧ fallback_router ctx ∈ routerTargets := by
  obtain ⟨sym, pr, vo, mo, mlo, so, ro, dao, fd⟩ := ctx
  constructor
  · cases mo <;> cases so <;> cases ro <;> cases fd <;>
      simp [fallback_router, specFallbackRouter, branchAbsent, fallbackPriority, List.find?]
  · cases mo <;> cases so <;> cases ro <;> cases fd <;>
      simp [fallback_router, routerTargets]

/-- C8.  If every attempt of the market evaluator's judgment loop fails, the
evaluator still produces a well-formed evaluation with `isValid=false`,
`confidence=0`, `qualityScore=0` and an issues entry describing the failure;
the node returns a state (the embedded evaluator is total), so no fault
propagates past the evaluator boundary. -/
theorem evaluator_all_attempts_fail
    (judge : MarketJudge) (s : MarketSubgraphState) (out : MarketWorkerOutput)
    (hw : s.worker_output = some out) (hj : ∀ i, i < 3 → judge i = none) :
    (applyUpdate s (market_evaluator judge s)).evaluation =
      some (defaultFailedEvaluation unboundEvaluationMsg) ∧
    (defaultFailedEvaluation unboundEvaluationMsg).is_valid = false ∧
    (defaultFailedEvaluation unboundEvaluationMsg).confidence = 0 ∧
    (defaultFailedEvaluation unboundEvaluationMsg).quality_score = 0 ∧
    (defaultFailedEvaluation unboundEvaluationMsg).issues =
      ["Evaluation failed: " ++ unboundEvaluationMsg] ∧
    (applyUpdate s (market_evaluator judge s)).completed = true ∧
    (applyUpdate s (market_evaluator judge s)).error =
      some ("Evaluator failed: " ++ unboundEvaluationMsg) := by
  have h0 := hj 0 (by omega)
  have h1 := hj 1 (by omega)
  have h2 := hj 2 (by omega)
  have hfs : firstSuccess judge 3 = none := by
    have hr : List.range 3 = [0, 1, 2] := rfl
    simp [firstSuccess, hr, List.findSome?, h0, h1, h2]
  refine ⟨?_, rfl, rfl, rfl, rfl, ?_, ?_⟩ <;>
    simp [market_evaluator, hw, hfs, applyUpdate]

/-- Witness for `evaluator_all_attempts_fail`: the always-failing judgment on
a state with worker output present. -/
theorem evaluator_all_attempts_fail_witness :
    (applyUpdate sampleReadyState (market_evaluator (fun _ => none) sampleReadyState)).evaluation =
      some (defaultFailedEvaluation unboundEvaluationMsg) ∧
    (defaultFailedEvaluation unboundEvaluationMsg).is_valid = false ∧
    (defaultFailedEvaluation unboundEvaluationMsg).confidence = 0 ∧
    (defaultFailedEvaluation unboundEvaluationMsg).quality_score = 0 ∧
    (defaultFailedEvaluation unboundEvaluationMsg).issues =
      ["Evaluation failed: " ++ unboundEvaluationMsg] ∧
    (applyUpdate sampleReadyState (market_evaluator (fun _ => none) sampleReadyState)).completed = true ∧
    (applyUpdate sampleReadyState (market_evaluator (fun _ => none) sampleReadyState)).error =
      some ("Evaluator failed: " ++ unboundEvaluationMsg) :=
  evaluator_all_attempts_fail (fun _ => none) sampleReadyState sampleWorkerOutput rfl
    (fun _ _ => rfl)

/-- C9.  For every call to `check_risk_constraints` with a proposed action
other than `buy` (and a well-defined stop-loss division), the call succeeds
and the result has `all_checks_passed = true`, an empty blockers list and
`risk_signal = "proceed"`, regardless of the size, balance, positions,
volatility and parameters: exposure and volatility violations only become
blockers for `buy`, and the stop-loss check only adds warnings. -/
theorem check_risk_constraints_nonbuy
    (symbol proposed_action : String) (proposed_size current_price account_balance : ℚ)
    (positions : List (String × ℚ)) (entry_price : Option ℚ) (volatility : ℚ)
    (params : RiskParams)
    (hne : proposed_action ≠ "buy")
    (hep : ∀ ep, entry_price = some ep → ep ≠ 0) :
    ∃ r, check_risk_constraints symbol proposed_action proposed_size current_price
        account_balance positions entry_price volatility params = .ok r ∧
      r.all_checks_passed = true ∧ r.blockers = [] ∧ r.risk_signal = "proceed" := by
  have hb : (proposed_action == "buy") = false := by
    simp [hne]
  rcases entry_price with _ | ep
  · simp only [check_risk_constraints, hb, Bool.and_false, if_false]
    exact ⟨_, rfl, rfl, rfl, rfl⟩
  · have hep0 : ep ≠ 0 := hep ep rfl
    simp only [check_risk_constraints, hb, Bool.and_false, if_false, check_stop_loss,
      if_neg hep0, Except.map]
    exact ⟨_, rfl, rfl, rfl, rfl⟩

/-- Witness for `check_risk_constraints_nonbuy`: a concrete `sell` call with a
present, non-zero entry price. -/
theorem check_risk_constraints_nonbuy_witness :
    ("sell" : String) ≠ "buy" ∧
    ∃ r, check_risk_constraints "ETH" "sell" 1000 100 100000 [("ETH", 90000)]
        (some 50) (9 / 100) {} = .ok r ∧
      r.all_checks_passed = true ∧ r.blockers = [] ∧ r.risk_signal = "proceed" := by
  refine ⟨by decide, ?_⟩
  exact check_risk_constraints_nonbuy "ETH" "sell" 1000 100 100000 [("ETH", 90000)]
    (some 50) (9 / 100) {} (by decide) (fun ep h => by cases h; norm_num)

/-- Members of a Python tail slice are members of the original list. -/
lemma mem_pyLastSlice {x : ℚ} {l : List ℚ} {p : ℕ} (h : x ∈ pyLastSlice l p) : x ∈ l := by
  unfold pyLastSlice at h
  split at h
  · exact h
  · exact List.mem_of_mem_drop h

/-- The average gain is non-negative: every entry of the gains array is. -/
lemma rsiAvgGain_nonneg (prices : List ℚ) (period : ℕ) : 0 ≤ rsiAvgGain prices period := by
  unfold rsiAvgGain listMean
  apply div_nonneg
  · apply List.sum_nonneg
    intro x hx
    obtain ⟨d, _, rfl⟩ := List.mem_map.mp (mem_pyLastSlice hx)
    by_cases hd : 0 < d
    · simpa [hd] using le_of_lt hd
    · simp [hd]
  · exact Nat.cast_nonneg _

/-- The average loss is non-negative: every entry of the losses array is. -/
lemma rsiAvgLoss_nonneg (prices : List ℚ) (period : ℕ) : 0 ≤ rsiAvgLoss prices period := by
  unfold rsiAvgLoss listMean
  apply div_nonneg
  · apply List.sum_nonneg
    intro x hx
    obtain ⟨d, _, rfl⟩ := List.mem_map.mp (mem_pyLastSlice hx)
    by_cases hd : d < 0
    · simp only [if_pos hd]
      linarith
    · simp [hd]
  · exact Nat.cast_nonneg _

/-- C10.  `calculate_rsi` always returns a value in `[0, 100]`: it returns 50
when fewer than `period+1` prices are given, 100 when the average loss over
the last `period` deltas is zero, and otherwise `100 - 100/(1+rs)` with
`rs = avg_gain/avg_loss ≥ 0`, which lies in `[0, 100)`.  (`period ≥ 1` keeps
the model inside the regime where the Python slice and mean are faithful;
the caller uses the default 14.) -/
theorem calculate_rsi_bounds (prices : List ℚ) (period : ℕ) (hp : 1 ≤ period) :
    (0 ≤ calculate_rsi prices period ∧ calculate_rsi prices period ≤ 100) ∧
    (prices.length < period + 1 → calculate_rsi prices period = 50) ∧
    (¬ prices.length < period + 1 → rsiAvgLoss prices period = 0 →
        calculate_rsi prices period = 100) ∧
    (¬ prices.length < period + 1 → rsiAvgLoss prices period ≠ 0 →
        0 ≤ rsiAvgGain prices period / rsiAvgLoss prices period ∧
        calculate_rsi prices period =
          100 - 100 / (1 + rsiAvgGain prices period / rsiAvgLoss prices period) ∧
        calculate_rsi prices period < 100) := by
  have hg := rsiAvgGain_nonneg prices period
  have hl := rsiAvgLoss_nonneg prices period
  by_cases hlen : prices.length < period + 1
  · rw [calculate_rsi, if_pos hlen]
    refine ⟨⟨by norm_num, by norm_num⟩, fun _ => rfl, fun h => absurd hlen h, fun h => absurd hlen h⟩
  · by_cases hz : rsiAvgLoss prices period = 0
    · rw [calculate_rsi, if_neg hlen, if_pos hz]
      exact ⟨⟨by norm_num, by norm_num⟩, fun h => absurd h hlen, fun _ _ => rfl,
        fun _ h => absurd hz h⟩
    · have hlpos : 0 < rsiAvgLoss prices period := lt_of_le_of_ne hl (Ne.symm hz)
      have hrs : 0 ≤ rsiAvgGain prices period / rsiAvgLoss prices period :=
        div_nonneg hg (le_of_lt hlpos)
      have hdenom : (0 : ℚ) < 1 + rsiAvgGain prices period / rsiAvgLoss prices period := by
        linarith
      have hfrac_pos : 0 < 100 / (1 + rsiAvgGain prices period / rsiAvgLoss prices period) :=
        div_pos (by norm_num) hdenom
      have hfrac_le : 100 / (1 + rsiAvgGain prices period / rsiAvgLoss prices period) ≤ 100 :=
        div_le_self (by norm_num) (by linarith)
      rw [calculate_rsi, if_neg hlen, if_neg hz]
      refine ⟨⟨by linarith, by linarith⟩, fun h => absurd h hlen, fun _ h => absurd h hz,
        fun _ _ => ⟨hrs, rfl, by linarith⟩⟩

/-- Witness for `calculate_rsi_bounds` at a concrete price list and period. -/
theorem calculate_rsi_bounds_witness :
    (1 : ℕ) ≤ 1 ∧ 0 ≤ calculate_rsi [1, 2, 1] 1 ∧ calculate_rsi [1, 2, 1] 1 ≤ 100 :=
  ⟨le_rfl, (calculate_rsi_bounds [1, 2, 1] 1 le_rfl).1.1,
    (calculate_rsi_bounds [1, 2, 1] 1 le_rfl).1.2⟩
